import Mathlib

/-!
Verification of the AionVanguard trading-agent core.

Shallow embedding of the Go sources:
  backend/risk/risk.go          (risk.Manager and its methods)
  backend/strategy/strategy.go  (CombinedStrategy.GenerateSignal)
  backend/agent/agent.go        (TradingAgent lifecycle and trade cycle)

Conventions of the embedding:
  * Go float64 values are modelled as exact rationals; the arithmetic in
    the claims is the ideal real arithmetic these floats approximate.
  * Mutation of a struct field becomes explicit state passing.
  * A Go run-time abort (close of an already closed channel) becomes an
    Except error value.
  * The go-talib indicator library is an external dependency whose source
    is not part of the repository; its SMA/RSI series are modelled from
    the specification (see the doc comments on Sma and Rsi below).
-/

namespace AionVanguard

/-! ## backend/risk/risk.go -/

/-- Manager handles trading risk (risk.go lines 9-14). -/
structure Manager where
  AccountBalance : ℚ
  RiskPerTradePercentage : ℚ
  DailyRiskLimitPercentage : ℚ
  DailyLossIncurred : ℚ
deriving DecidableEq

/-- NewManager (risk.go lines 17-23). The DailyLossIncurred field is left at
the Go zero value 0. -/
def NewManager (accountBalance riskPerTradePercentage dailyRiskLimitPercentage : ℚ) : Manager :=
  { AccountBalance := accountBalance
    RiskPerTradePercentage := riskPerTradePercentage
    DailyRiskLimitPercentage := dailyRiskLimitPercentage
    DailyLossIncurred := 0 }

/-- CalculatePositionSize (risk.go lines 26-41). Returns 0 on non-positive
prices or a zero price difference, otherwise riskAmount / priceDifference. -/
def CalculatePositionSize (m : Manager) (entryPrice stopLossPrice : ℚ) : ℚ :=
  if entryPrice ≤ 0 ∨ stopLossPrice ≤ 0 then 0
  else if |entryPrice - stopLossPrice| = 0 then 0
  else m.AccountBalance * m.RiskPerTradePercentage / |entryPrice - stopLossPrice|

/-- DetermineTakeProfit (risk.go lines 44-52). -/
def DetermineTakeProfit (entryPrice stopLossPrice riskRewardRatio : ℚ) : ℚ :=
  if entryPrice > stopLossPrice then entryPrice + |entryPrice - stopLossPrice| * riskRewardRatio
  else entryPrice - |entryPrice - stopLossPrice| * riskRewardRatio

/-- UpdateAccountBalance (risk.go lines 55-62): the update is applied only
when the new balance is positive, otherwise it is dropped. -/
def UpdateAccountBalance (m : Manager) (newBalance : ℚ) : Manager :=
  if 0 < newBalance then { m with AccountBalance := newBalance } else m

/-! ## backend/strategy/strategy.go -/

/-- Signal represents a trading signal (strategy.go lines 72-81). -/
inductive Signal
  | Buy
  | Sell
  | Hold
deriving DecidableEq

/-- CombinedStrategy (strategy.go lines 85-91). Window sizes are Go ints,
used only as nonnegative counts. -/
structure CombinedStrategy where
  ShortWindow : ℕ
  LongWindow : ℕ
  RSIWindow : ℕ
  RSIOverbought : ℚ
  RSIOversold : ℚ
deriving DecidableEq

/-- NewCombinedStrategy (strategy.go lines 94-102). -/
def NewCombinedStrategy (shortWindow longWindow rsiWindow : ℕ)
    (rsiOverbought rsiOversold : ℚ) : CombinedStrategy :=
  { ShortWindow := shortWindow
    LongWindow := longWindow
    RSIWindow := rsiWindow
    RSIOverbought := rsiOverbought
    RSIOversold := rsiOversold }

/-- the window of w prices ending at index i (inclusive); when fewer than w
prices precede index i the slice is shorter than w. -/
def smaWindow (xs : List ℚ) (w i : ℕ) : List ℚ :=
  (xs.take (i + 1)).drop (i + 1 - w)

/-- arithmetic mean of the window of w prices ending at index i: the
trailing-window SMA value of the spec. -/
def smaAt (xs : List ℚ) (w i : ℕ) : ℚ :=
  (smaWindow xs w i).sum / (w : ℚ)

/-- Modelled from the spec: talib.Sma of the go-talib dependency, whose
source is not in the repository. The spec defines the SMA as the arithmetic
mean of the last w points; the library returns a series aligned with the
input (one value per input index), which GenerateSignal indexes at its last
two positions. Indices whose trailing window does not fit (i + 1 < w) carry
the lookback placeholder 0. -/
def Sma (w : ℕ) (xs : List ℚ) : List ℚ :=
  (List.range xs.length).map fun i => if w ≤ i + 1 then smaAt xs w i else 0

/-- successive price changes of the series: entry j is xs[j+1] - xs[j]. -/
def priceChanges (xs : List ℚ) : List ℚ :=
  List.zipWith (fun a b => b - a) xs xs.tail

/-- the window of the w price changes ending at price index i, that is the
changes with indices i - w .. i - 1. -/
def rsiWindow (xs : List ℚ) (w i : ℕ) : List ℚ :=
  ((priceChanges xs).take i).drop (i - w)

/-- RSI value at price index i over the last w price changes, the formula of
the spec: 100 - 100 / (1 + avgGain / avgLoss). Division by a zero average
loss follows the Lean convention x / 0 = 0. -/
def rsiAt (xs : List ℚ) (w i : ℕ) : ℚ :=
  let avgGain := ((rsiWindow xs w i).map fun c => if 0 < c then c else 0).sum / (w : ℚ)
  let avgLoss := ((rsiWindow xs w i).map fun c => if c < 0 then -c else 0).sum / (w : ℚ)
  100 - 100 / (1 + avgGain / avgLoss)

/-- Modelled from the spec: talib.Rsi of the go-talib dependency, whose
source is not in the repository. A series aligned with the input; the value
at index i is the RSI over the w price changes ending at index i, and the
first w indices, which lack a full window of changes, carry the lookback
placeholder 0. -/
def Rsi (w : ℕ) (xs : List ℚ) : List ℚ :=
  (List.range xs.length).map fun i => if w ≤ i then rsiAt xs w i else 0

/-- last element of an indicator series, as read by strategy.go line 117:
series[len(series)-1]; default 0 out of range. -/
def lastVal (l : List ℚ) : ℚ :=
  l.getD (l.length - 1) 0

/-- second-to-last element of an indicator series, as read by strategy.go
line 118: series[len(series)-2]; default 0 out of range. -/
def prevVal (l : List ℚ) : ℚ :=
  l.getD (l.length - 2) 0

/-- GenerateSignal (strategy.go lines 105-138). The Go locals
(shortSMA, longSMA, rsi, the four SMA reads and latestRSI) are inlined; the
two crossover conditions and the branch order are exactly those of lines
123-137: the Buy branch is tested first. -/
def GenerateSignal (s : CombinedStrategy) (closePrices : List ℚ) : Signal :=
  if closePrices.length < s.LongWindow then Signal.Hold
  else if prevVal (Sma s.ShortWindow closePrices) ≤ prevVal (Sma s.LongWindow closePrices)
      ∧ lastVal (Sma s.ShortWindow closePrices) > lastVal (Sma s.LongWindow closePrices)
      ∧ lastVal (Rsi s.RSIWindow closePrices) < s.RSIOverbought then Signal.Buy
  else if prevVal (Sma s.ShortWindow closePrices) ≥ prevVal (Sma s.LongWindow closePrices)
      ∧ lastVal (Sma s.ShortWindow closePrices) < lastVal (Sma s.LongWindow closePrices)
      ∧ lastVal (Rsi s.RSIWindow closePrices) > s.RSIOversold then Signal.Sell
  else Signal.Hold

/-! ## backend/agent/agent.go -/

/-- Config (agent.go lines 31-36). -/
structure Config where
  Symbols : List String
  RiskPerTrade : ℚ
  RiskRewardRatio : ℚ
  TimeBasedExit : ℤ
deriving DecidableEq

/-- TradingAgent (agent.go lines 18-28). The Broker, DataFetcher and Conn
fields are handles to external collaborators and carry no state of the core;
they are omitted. The channel field stopChan is represented by whether it
has been closed (stopClosed), which is the only observable fact Start, Stop
and the loop consult. -/
structure TradingAgent where
  Config : Config
  Strategy : CombinedStrategy
  RiskManager : Manager
  isRunning : Bool
  stopClosed : Bool
deriving DecidableEq

/-- NewTradingAgent (agent.go lines 39-49): hardcoded strategy parameters
(20, 50, 14, 70, 30) and risk manager (balance 10000.0, risk fraction
config.RiskPerTrade/100, daily limit 0.05); a fresh open stop channel and
the Go zero value false for isRunning. -/
def NewTradingAgent (config : Config) : TradingAgent :=
  { Config := config
    Strategy := NewCombinedStrategy 20 50 14 70 30
    RiskManager := NewManager 10000 (config.RiskPerTrade / 100) (5 / 100)
    isRunning := false
    stopClosed := false }

/-- the deployed strategy instance built by NewTradingAgent. -/
def defaultStrategy : CombinedStrategy :=
  NewCombinedStrategy 20 50 14 70 30

/-- order side, the alpaca.Buy / alpaca.Sell constants used at agent.go
lines 132-135. -/
inductive Side
  | buy
  | sell
deriving DecidableEq

/-- Order Intent: the arguments of the PlaceOrder call at agent.go line 137
(the order kind market and time-in-force GTC are constants). -/
structure OrderIntent where
  symbol : String
  qty : ℚ
  side : Side
deriving DecidableEq

/-- a call into the risk.Manager made by a trade cycle: either
CalculatePositionSize or DetermineTakeProfit, with its arguments. -/
inductive RiskCall
  | positionSize (entryPrice stopLossPrice : ℚ)
  | takeProfit (entryPrice stopLossPrice riskRewardRatio : ℚ)
deriving DecidableEq

/-- result of one trade cycle for one symbol: the order submitted to the
brokerage, if any, and the list of risk.Manager calls the cycle performed,
in order. -/
structure CycleResult where
  order : Option OrderIntent
  riskCalls : List RiskCall
deriving DecidableEq

/-- the Go local entryPrice of processSymbol (agent.go line 124): the last
fetched close price, candles.C[len(candles.C)-1]. -/
def entryPriceOf (closes : List ℚ) : ℚ :=
  closes.getD (closes.length - 1) 0

/-- the Go local stopLossPrice of processSymbol (agent.go lines 125-128):
entry times (1 - 0.02), reassigned to entry times (1 + 0.02) on Sell. -/
def stopLossPriceOf (signal : Signal) (entryPrice : ℚ) : ℚ :=
  if signal = Signal.Sell then entryPrice * (1 + 2 / 100) else entryPrice * (1 - 2 / 100)

/-- processSymbol (agent.go lines 108-142). The data fetch is abstracted as
its outcome: none is a fetch error (early return, line 116), some closes is
the fetched close-price series candles.C. The Go locals signal, entryPrice,
stopLossPrice and positionSize are inlined (entryPriceOf, stopLossPriceOf).
The body invokes the risk manager exactly once, CalculatePositionSize at
line 130; it contains no DetermineTakeProfit call, which the riskCalls
trace records. An order is submitted iff the position size is strictly
positive (line 131); an order placement error only logs (lines 138-140)
and changes nothing the cycle returns. -/
def processSymbol (a : TradingAgent) (symbol : String) (fetched : Option (List ℚ)) :
    CycleResult :=
  match fetched with
  | none => ⟨none, []⟩
  | some closes =>
    if GenerateSignal a.Strategy closes = Signal.Hold then ⟨none, []⟩
    else if 0 < CalculatePositionSize a.RiskManager (entryPriceOf closes)
        (stopLossPriceOf (GenerateSignal a.Strategy closes) (entryPriceOf closes)) then
      ⟨some ⟨symbol,
            CalculatePositionSize a.RiskManager (entryPriceOf closes)
              (stopLossPriceOf (GenerateSignal a.Strategy closes) (entryPriceOf closes)),
            if GenerateSignal a.Strategy closes = Signal.Sell then Side.sell else Side.buy⟩,
       [RiskCall.positionSize (entryPriceOf closes)
          (stopLossPriceOf (GenerateSignal a.Strategy closes) (entryPriceOf closes))]⟩
    else
      ⟨none,
       [RiskCall.positionSize (entryPriceOf closes)
          (stopLossPriceOf (GenerateSignal a.Strategy closes) (entryPriceOf closes))]⟩

/-- trade (agent.go lines 94-106). The account fetch is abstracted as its
outcome: none is a GetAccount error (the whole tick is skipped, line 98),
some balance is the fetched equity. On success the balance is refreshed via
UpdateAccountBalance and every configured symbol is processed sequentially
in configuration order, each with its own data-fetch outcome. -/
def trade (a : TradingAgent) (accountFetch : Option ℚ)
    (dataFetch : String → Option (List ℚ)) : TradingAgent × List CycleResult :=
  match accountFetch with
  | none => (a, [])
  | some balance =>
    let updated := { a with RiskManager := UpdateAccountBalance a.RiskManager balance }
    (updated, updated.Config.Symbols.map fun sym => processSymbol updated sym (dataFetch sym))

/-! ### Lifecycle (agent.go lines 52-76)

Start and Stop read and write only the isRunning flag and the stop channel,
both under the mutex, so a sequence of calls is faithfully modelled by the
sequential small-step functions below on the projected state. The scheduler
goroutine only receives from the channel and never writes this state. -/

/-- lifecycle state shared between Start, Stop and the loop: the isRunning
flag and whether stopChan has been closed. -/
structure LifecycleState where
  isRunning : Bool
  stopClosed : Bool
deriving DecidableEq

/-- state of a freshly constructed agent: not running, channel open. -/
def initialLifecycle : LifecycleState :=
  ⟨false, false⟩

/-- Start (agent.go lines 52-63): if already running, a logged no-op;
otherwise the flag flips to true and the loop goroutine is launched, which
changes neither field. -/
def Start (s : LifecycleState) : LifecycleState :=
  if s.isRunning then s else { s with isRunning := true }

/-- Stop (agent.go lines 66-76): if not running, a logged no-op; otherwise
close(stopChan) then the flag flips to false. In Go, close of an already
closed channel aborts the program; that abort is the error outcome. -/
def Stop (s : LifecycleState) : Except Unit LifecycleState :=
  if !s.isRunning then Except.ok s
  else if s.stopClosed then Except.error ()
  else Except.ok ⟨false, true⟩

/-- an external call on the controller. -/
inductive LifecycleCall
  | start
  | stop
deriving DecidableEq

/-- one external call applied to the lifecycle state. -/
def applyCall (s : LifecycleState) : LifecycleCall → Except Unit LifecycleState
  | LifecycleCall.start => Except.ok (Start s)
  | LifecycleCall.stop => Stop s

/-- a finite sequence of Start/Stop calls run left to right; the first abort
stops the run. -/
def runCalls (s : LifecycleState) : List LifecycleCall → Except Unit LifecycleState
  | [] => Except.ok s
  | c :: cs =>
    match applyCall s c with
    | Except.ok t => runCalls t cs
    | Except.error e => Except.error e

/-- the shortest call pattern that drives the given lifecycle state into the
aborting close of an already closed channel. -/
def needed (s : LifecycleState) : List LifecycleCall :=
  match s.isRunning, s.stopClosed with
  | false, false => [LifecycleCall.start, LifecycleCall.stop, LifecycleCall.start, LifecycleCall.stop]
  | true, false => [LifecycleCall.stop, LifecycleCall.start, LifecycleCall.stop]
  | false, true => [LifecycleCall.start, LifecycleCall.stop]
  | true, true => [LifecycleCall.stop]

/-! ### Concrete scenario data used by witnesses and counterexamples -/

/-- a 51-tick close-price series: flat at 1 for 50 ticks, then a jump to 4.
Under the deployed strategy it produces a bullish crossover with RSI below
the overbought threshold, hence a Buy signal. -/
def buySeries : List ℚ :=
  List.replicate 50 1 ++ [4]

/-- a concrete operator configuration: two symbols, risk 1 percent per
trade, reward ratio 3. -/
def sampleConfig : Config :=
  ⟨["BAD", "GOOD"], 1, 3, 0⟩

/-- the agent built from the concrete configuration. -/
def sampleAgent : TradingAgent :=
  NewTradingAgent sampleConfig

/-- a concrete data-fetch outcome: the symbol GOOD fetches the jump series,
every other symbol fails with an error. -/
def sampleFetch : String → Option (List ℚ) :=
  fun symbol => if symbol = "GOOD" then some buySeries else none

end AionVanguard

namespace AionVanguard

/-! ## Helper lemmas -/

/-- reading a mapped range list at an in-range index yields the function
value there. -/
theorem getD_map_range (f : ℕ → ℚ) (n i : ℕ) (h : i < n) :
    (((List.range n).map f).getD i 0) = f i := by
  rw [List.getD_eq_getElem _ _ (by simpa using h)]
  simp

/-- the SMA series is aligned with its input. -/
theorem Sma_length (w : ℕ) (xs : List ℚ) : (Sma w xs).length = xs.length := by
  simp [Sma]

/-- the RSI series is aligned with its input. -/
theorem Rsi_length (w : ℕ) (xs : List ℚ) : (Rsi w xs).length = xs.length := by
  simp [Rsi]

/-- an in-range read of the SMA series past the lookback region is the
trailing-window mean. -/
theorem Sma_getD (w : ℕ) (xs : List ℚ) (i : ℕ) (h : i < xs.length) (hw : w ≤ i + 1) :
    (Sma w xs).getD i 0 = smaAt xs w i := by
  unfold Sma
  rw [getD_map_range _ _ _ h, if_pos hw]

/-- an in-range read of the RSI series past the lookback region is the
trailing-window RSI. -/
theorem Rsi_getD (w : ℕ) (xs : List ℚ) (i : ℕ) (h : i < xs.length) (hw : w ≤ i) :
    (Rsi w xs).getD i 0 = rsiAt xs w i := by
  unfold Rsi
  rw [getD_map_range _ _ _ h, if_pos hw]

/-! ## Claim theorems -/

/-- C2: CalculatePositionSize returns 0 when entryPrice ≤ 0 or
stopLossPrice ≤ 0 or the absolute price difference is 0, and otherwise
returns balance times risk fraction divided by the absolute price
difference; in particular with entry 100, stop 98, balance 10000 and risk
0.01 it returns 50. -/
theorem calculatePositionSize_spec (m : Manager) (entryPrice stopLossPrice : ℚ) :
    ((entryPrice ≤ 0 ∨ stopLossPrice ≤ 0 ∨ |entryPrice - stopLossPrice| = 0) →
      CalculatePositionSize m entryPrice stopLossPrice = 0)
    ∧ (0 < entryPrice → 0 < stopLossPrice → |entryPrice - stopLossPrice| ≠ 0 →
      CalculatePositionSize m entryPrice stopLossPrice =
        m.AccountBalance * m.RiskPerTradePercentage / |entryPrice - stopLossPrice|)
    ∧ CalculatePositionSize (NewManager 10000 (1 / 100) (5 / 100)) 100 98 = 50 := by
  refine ⟨?_, ?_, by decide!⟩
  · intro h
    unfold CalculatePositionSize
    split_ifs with h1 h2
    · rfl
    · rfl
    · rcases h with h | h | h
      · exact absurd (Or.inl h) h1
      · exact absurd (Or.inr h) h1
      · exact absurd h h2
  · intro he hsl hd
    unfold CalculatePositionSize
    rw [if_neg (by rw [not_or, not_le, not_le]; exact ⟨he, hsl⟩), if_neg hd]

/-- witness for C2 at entry 100, stop 98 (and the zero case at entry 0). -/
theorem calculatePositionSize_spec_witness :
    CalculatePositionSize (NewManager 10000 (1 / 100) (5 / 100)) 0 98 = 0
    ∧ CalculatePositionSize (NewManager 10000 (1 / 100) (5 / 100)) 100 98 =
        (NewManager 10000 (1 / 100) (5 / 100)).AccountBalance *
          (NewManager 10000 (1 / 100) (5 / 100)).RiskPerTradePercentage / |(100 : ℚ) - 98| :=
  ⟨(calculatePositionSize_spec (NewManager 10000 (1 / 100) (5 / 100)) 0 98).1
      (Or.inl (by decide!)),
   (calculatePositionSize_spec (NewManager 10000 (1 / 100) (5 / 100)) 100 98).2.1
      (by decide!) (by decide!) (by decide!)⟩

/-- C4: DetermineTakeProfit adds the reward-scaled distance to the entry
when entry exceeds stop, and subtracts it otherwise; in particular
DetermineTakeProfit 100 98 3 = 106 and DetermineTakeProfit 100 102 3 = 94. -/
theorem determineTakeProfit_spec (entryPrice stopLossPrice riskRewardRatio : ℚ) :
    (stopLossPrice < entryPrice →
      DetermineTakeProfit entryPrice stopLossPrice riskRewardRatio =
        entryPrice + |entryPrice - stopLossPrice| * riskRewardRatio)
    ∧ (entryPrice ≤ stopLossPrice →
      DetermineTakeProfit entryPrice stopLossPrice riskRewardRatio =
        entryPrice - |entryPrice - stopLossPrice| * riskRewardRatio)
    ∧ DetermineTakeProfit 100 98 3 = 106
    ∧ DetermineTakeProfit 100 102 3 = 94 := by
  refine ⟨?_, ?_, by decide!, by decide!⟩
  · intro h
    unfold DetermineTakeProfit
    rw [if_pos h]
  · intro h
    unfold DetermineTakeProfit
    rw [if_neg (not_lt.mpr h)]

/-- witness for C4 at the two concrete calls of the claim. -/
theorem determineTakeProfit_spec_witness :
    DetermineTakeProfit 100 98 3 = 100 + |(100 : ℚ) - 98| * 3
    ∧ DetermineTakeProfit 100 102 3 = 100 - |(100 : ℚ) - 102| * 3 :=
  ⟨(determineTakeProfit_spec 100 98 3).1 (by decide!),
   (determineTakeProfit_spec 100 102 3).2.1 (by decide!)⟩

/-- C10: a newly constructed agent's risk manager starts with the hardcoded
balance 10000, daily limit 0.05, risk fraction RiskPerTrade / 100, a zero
daily-loss accumulator, and the balance stays 10000 across any sequence of
failed (non-positive) refresh attempts. -/
theorem newTradingAgent_riskManager (config : Config) :
    (NewTradingAgent config).RiskManager.AccountBalance = 10000
    ∧ (NewTradingAgent config).RiskManager.RiskPerTradePercentage = config.RiskPerTrade / 100
    ∧ (NewTradingAgent config).RiskManager.DailyRiskLimitPercentage = 5 / 100
    ∧ (NewTradingAgent config).RiskManager.DailyLossIncurred = 0
    ∧ ∀ updates : List ℚ, (∀ u ∈ updates, u ≤ 0) →
        (updates.foldl UpdateAccountBalance (NewTradingAgent config).RiskManager).AccountBalance =
          10000 := by
  have key : ∀ (updates : List ℚ) (m : Manager), (∀ u ∈ updates, u ≤ 0) →
      (updates.foldl UpdateAccountBalance m).AccountBalance = m.AccountBalance := by
    intro updates
    induction updates with
    | nil => intro m _; rfl
    | cons u us ih =>
      intro m h
      have hu : ¬ 0 < u := not_lt.mpr (h u (List.mem_cons_self u us))
      simp only [List.foldl_cons, UpdateAccountBalance, if_neg hu]
      exact ih m fun v hv => h v (List.mem_cons_of_mem _ hv)
  exact ⟨rfl, rfl, rfl, rfl, fun updates h => key updates _ h⟩

/-- witness for C10: two failed refresh attempts leave the hardcoded
balance in place. -/
theorem newTradingAgent_riskManager_witness :
    (([-5, 0] : List ℚ).foldl UpdateAccountBalance
      (NewTradingAgent sampleConfig).RiskManager).AccountBalance = 10000 :=
  (newTradingAgent_riskManager sampleConfig).2.2.2.2 [-5, 0] (by decide!)

/-- counterexample to C6 as stated: with the risk fraction -0.01 (the
operator field RiskPerTrade = -1), CalculatePositionSize returns the
strictly negative value -50. -/
theorem calculatePositionSize_negative_counterexample :
    CalculatePositionSize (NewManager 10000 (-(1 / 100)) (5 / 100)) 100 98 < 0 := by
  decide!

/-- C6 (amended): CalculatePositionSize never returns a negative value
whenever balance times risk fraction is nonnegative, and the trade cycle
submits an order only when the returned size is strictly positive. -/
theorem positionSize_nonneg_and_trade_gate :
    (∀ (m : Manager) (entryPrice stopLossPrice : ℚ),
      0 ≤ m.AccountBalance * m.RiskPerTradePercentage →
      0 ≤ CalculatePositionSize m entryPrice stopLossPrice)
    ∧ (∀ (a : TradingAgent) (symbol : String) (fetched : Option (List ℚ)) (o : OrderIntent),
      (processSymbol a symbol fetched).order = some o → 0 < o.qty) := by
  constructor
  · intro m entryPrice stopLossPrice h
    unfold CalculatePositionSize
    split_ifs
    · exact le_refl 0
    · exact le_refl 0
    · exact div_nonneg h (abs_nonneg _)
  · intro a symbol fetched o h
    cases fetched with
    | none => exact absurd h (by simp [processSymbol])
    | some closes =>
      simp only [processSymbol] at h
      by_cases hh : GenerateSignal a.Strategy closes = Signal.Hold
      · rw [if_pos hh] at h
        exact absurd h (by simp)
      · rw [if_neg hh] at h
        by_cases hp : 0 < CalculatePositionSize a.RiskManager (entryPriceOf closes)
            (stopLossPriceOf (GenerateSignal a.Strategy closes) (entryPriceOf closes))
        · rw [if_pos hp] at h
          obtain rfl : _ = o := Option.some_injective _ h
          exact hp
        · rw [if_neg hp] at h
          exact absurd h (by simp)

/-- witness for C6 (amended) at concrete inputs: a nonnegative size with
the deployed manager, and the Buy order of the jump series has a strictly
positive quantity. -/
theorem positionSize_nonneg_and_trade_gate_witness :
    0 ≤ CalculatePositionSize (NewManager 10000 (1 / 100) (5 / 100)) 100 98
    ∧ 0 < (OrderIntent.mk "GOOD" 1250 Side.buy).qty :=
  ⟨positionSize_nonneg_and_trade_gate.1 (NewManager 10000 (1 / 100) (5 / 100)) 100 98
      (by decide!),
   positionSize_nonneg_and_trade_gate.2 sampleAgent "GOOD" (some buySeries)
      ⟨"GOOD", 1250, Side.buy⟩ (by decide!)⟩

/-- cases of GenerateSignal over the consulted series values, for any
strategy parameters once the history guard passes: Buy iff the bullish
triple holds, Sell iff the bearish triple holds (the two are mutually
exclusive, so the branch order does not restrict the Sell case), Hold iff
neither holds. -/
theorem generateSignal_iff (s : CombinedStrategy) (xs : List ℚ)
    (h : s.LongWindow ≤ xs.length) :
    (GenerateSignal s xs = Signal.Buy ↔
      prevVal (Sma s.ShortWindow xs) ≤ prevVal (Sma s.LongWindow xs)
        ∧ lastVal (Sma s.LongWindow xs) < lastVal (Sma s.ShortWindow xs)
        ∧ lastVal (Rsi s.RSIWindow xs) < s.RSIOverbought)
    ∧ (GenerateSignal s xs = Signal.Sell ↔
      prevVal (Sma s.LongWindow xs) ≤ prevVal (Sma s.ShortWindow xs)
        ∧ lastVal (Sma s.ShortWindow xs) < lastVal (Sma s.LongWindow xs)
        ∧ s.RSIOversold < lastVal (Rsi s.RSIWindow xs))
    ∧ (GenerateSignal s xs = Signal.Hold ↔
      ¬(prevVal (Sma s.ShortWindow xs) ≤ prevVal (Sma s.LongWindow xs)
          ∧ lastVal (Sma s.LongWindow xs) < lastVal (Sma s.ShortWindow xs)
          ∧ lastVal (Rsi s.RSIWindow xs) < s.RSIOverbought)
        ∧ ¬(prevVal (Sma s.LongWindow xs) ≤ prevVal (Sma s.ShortWindow xs)
          ∧ lastVal (Sma s.ShortWindow xs) < lastVal (Sma s.LongWindow xs)
          ∧ s.RSIOversold < lastVal (Rsi s.RSIWindow xs))) := by
  have hg : ¬ (xs.length < s.LongWindow) := not_lt.mpr h
  unfold GenerateSignal
  rw [if_neg hg]
  by_cases hb : prevVal (Sma s.ShortWindow xs) ≤ prevVal (Sma s.LongWindow xs)
      ∧ lastVal (Sma s.LongWindow xs) < lastVal (Sma s.ShortWindow xs)
      ∧ lastVal (Rsi s.RSIWindow xs) < s.RSIOverbought
  · rw [if_pos hb]
    have hexcl : ¬ (prevVal (Sma s.LongWindow xs) ≤ prevVal (Sma s.ShortWindow xs)
        ∧ lastVal (Sma s.ShortWindow xs) < lastVal (Sma s.LongWindow xs)
        ∧ s.RSIOversold < lastVal (Rsi s.RSIWindow xs)) :=
      fun hs => lt_asymm hb.2.1 hs.2.1
    exact ⟨⟨fun _ => hb, fun _ => rfl⟩,
           ⟨fun heq => Signal.noConfusion heq, fun hs => absurd hs hexcl⟩,
           ⟨fun heq => Signal.noConfusion heq, fun hn => absurd hb hn.1⟩⟩
  · rw [if_neg hb]
    by_cases hs : prevVal (Sma s.LongWindow xs) ≤ prevVal (Sma s.ShortWindow xs)
        ∧ lastVal (Sma s.ShortWindow xs) < lastVal (Sma s.LongWindow xs)
        ∧ s.RSIOversold < lastVal (Rsi s.RSIWindow xs)
    · rw [if_pos hs]
      exact ⟨⟨fun heq => Signal.noConfusion heq, fun hbc => absurd hbc hb⟩,
             ⟨fun _ => hs, fun _ => rfl⟩,
             ⟨fun heq => Signal.noConfusion heq, fun hn => absurd hs hn.2⟩⟩
    · rw [if_neg hs]
      exact ⟨⟨fun heq => Signal.noConfusion heq, fun hbc => absurd hbc hb⟩,
             ⟨fun heq => Signal.noConfusion heq, fun hsc => absurd hsc hs⟩,
             ⟨fun _ => ⟨hb, hs⟩, fun _ => rfl⟩⟩

/-- C1: for the deployed strategy and any history at least as long as the
long window, GenerateSignal returns Buy iff previous short-SMA ≤ previous
long-SMA, current short-SMA strictly above current long-SMA and current
RSI below the overbought threshold 70; Sell iff the symmetric bearish
crossover holds and current RSI is above the oversold threshold 30 (the
Buy branch is tested first, and the two crossover conditions are mutually
exclusive); otherwise Hold. -/
theorem generateSignal_crossover_rsi (xs : List ℚ) (h : 50 ≤ xs.length) :
    (GenerateSignal defaultStrategy xs = Signal.Buy ↔
      prevVal (Sma 20 xs) ≤ prevVal (Sma 50 xs)
        ∧ lastVal (Sma 50 xs) < lastVal (Sma 20 xs)
        ∧ lastVal (Rsi 14 xs) < 70)
    ∧ (GenerateSignal defaultStrategy xs = Signal.Sell ↔
      prevVal (Sma 50 xs) ≤ prevVal (Sma 20 xs)
        ∧ lastVal (Sma 20 xs) < lastVal (Sma 50 xs)
        ∧ 30 < lastVal (Rsi 14 xs))
    ∧ (GenerateSignal defaultStrategy xs = Signal.Hold ↔
      ¬(prevVal (Sma 20 xs) ≤ prevVal (Sma 50 xs)
          ∧ lastVal (Sma 50 xs) < lastVal (Sma 20 xs)
          ∧ lastVal (Rsi 14 xs) < 70)
        ∧ ¬(prevVal (Sma 50 xs) ≤ prevVal (Sma 20 xs)
          ∧ lastVal (Sma 20 xs) < lastVal (Sma 50 xs)
          ∧ 30 < lastVal (Rsi 14 xs)))
    ∧ defaultStrategy.RSIOverbought = 70 ∧ defaultStrategy.RSIOversold = 30 := by
  obtain ⟨h1, h2, h3⟩ := generateSignal_iff defaultStrategy xs h
  exact ⟨h1, h2, h3, rfl, rfl⟩

/-- witness for C1 on a concrete flat 50-tick series (no crossover, so the
Buy equivalence is exercised with a Hold outcome). -/
theorem generateSignal_crossover_rsi_witness :
    50 ≤ (List.replicate 50 (1 : ℚ)).length
    ∧ (GenerateSignal defaultStrategy (List.replicate 50 (1 : ℚ)) = Signal.Buy ↔
        prevVal (Sma 20 (List.replicate 50 (1 : ℚ))) ≤
            prevVal (Sma 50 (List.replicate 50 (1 : ℚ)))
          ∧ lastVal (Sma 50 (List.replicate 50 (1 : ℚ))) <
            lastVal (Sma 20 (List.replicate 50 (1 : ℚ)))
          ∧ lastVal (Rsi 14 (List.replicate 50 (1 : ℚ))) < 70) :=
  ⟨by decide!, (generateSignal_crossover_rsi (List.replicate 50 (1 : ℚ)) (by decide!)).1⟩

/-- C3: any close-price sequence shorter than the long window yields Hold,
for every strategy configuration. -/
theorem generateSignal_insufficient_history (s : CombinedStrategy) (closePrices : List ℚ)
    (h : closePrices.length < s.LongWindow) :
    GenerateSignal s closePrices = Signal.Hold := by
  unfold GenerateSignal
  rw [if_pos h]

/-- witness for C3: a three-tick history under the deployed 50-tick long
window returns Hold. -/
theorem generateSignal_insufficient_history_witness :
    [(1 : ℚ), 2, 3].length < defaultStrategy.LongWindow
    ∧ GenerateSignal defaultStrategy [1, 2, 3] = Signal.Hold :=
  ⟨by decide!, generateSignal_insufficient_history defaultStrategy [1, 2, 3] (by decide!)⟩

/-- counterexample to C5 as stated: at length exactly the long window (a
flat 50-tick series), the previous-tick long-SMA consulted is the lookback
placeholder 0, while only 49 prices end at the second-to-last point, so no
window of 50 prices exists there and the trailing mean over the available
slice is 49/50 instead. -/
theorem indicators_boundary_counterexample :
    prevVal (Sma 50 (List.replicate 50 (1 : ℚ))) = 0
    ∧ smaAt (List.replicate 50 (1 : ℚ)) 50 ((List.replicate 50 (1 : ℚ)).length - 2) = 49 / 50
    ∧ (smaWindow (List.replicate 50 (1 : ℚ)) 50 ((List.replicate 50 (1 : ℚ)).length - 2)).length
        = 49
    ∧ (0 : ℚ) ≠ 49 / 50 := by
  decide!

/-- C5 (amended): for every close-price sequence of length at least
longWindow + 1 = 51, each indicator value GenerateSignal consults equals
the standard trailing-window definition over the input: the last and
second-to-last short-SMA (window 20) and long-SMA (window 50) readings are
the arithmetic means of the corresponding windows of exactly 20 and 50
prices ending at the last and second-to-last tick, and the RSI reading is
the spec formula over the window of exactly the last 14 price changes. At
length exactly 50 the previous-tick long window does not fit (see the
counterexample). -/
theorem indicators_consulted_eq_trailing (xs : List ℚ) (h : 51 ≤ xs.length) :
    lastVal (Sma 20 xs) = smaAt xs 20 (xs.length - 1)
    ∧ prevVal (Sma 20 xs) = smaAt xs 20 (xs.length - 2)
    ∧ lastVal (Sma 50 xs) = smaAt xs 50 (xs.length - 1)
    ∧ prevVal (Sma 50 xs) = smaAt xs 50 (xs.length - 2)
    ∧ lastVal (Rsi 14 xs) = rsiAt xs 14 (xs.length - 1)
    ∧ (smaWindow xs 20 (xs.length - 1)).length = 20
    ∧ (smaWindow xs 20 (xs.length - 2)).length = 20
    ∧ (smaWindow xs 50 (xs.length - 1)).length = 50
    ∧ (smaWindow xs 50 (xs.length - 2)).length = 50
    ∧ (rsiWindow xs 14 (xs.length - 1)).length = 14 := by
  have hlen : ∀ w : ℕ, (Sma w xs).length = xs.length := fun w => Sma_length w xs
  have hrlen : (Rsi 14 xs).length = xs.length := Rsi_length 14 xs
  refine ⟨?_, ?_, ?_, ?_, ?_, ?_, ?_, ?_, ?_, ?_⟩
  · unfold lastVal
    rw [hlen 20]
    exact Sma_getD 20 xs (xs.length - 1) (by omega) (by omega)
  · unfold prevVal
    rw [hlen 20]
    exact Sma_getD 20 xs (xs.length - 2) (by omega) (by omega)
  · unfold lastVal
    rw [hlen 50]
    exact Sma_getD 50 xs (xs.length - 1) (by omega) (by omega)
  · unfold prevVal
    rw [hlen 50]
    exact Sma_getD 50 xs (xs.length - 2) (by omega) (by omega)
  · unfold lastVal
    rw [hrlen]
    exact Rsi_getD 14 xs (xs.length - 1) (by omega) (by omega)
  · unfold smaWindow
    rw [List.length_drop, List.length_take]
    omega
  · unfold smaWindow
    rw [List.length_drop, List.length_take]
    omega
  · unfold smaWindow
    rw [List.length_drop, List.length_take]
    omega
  · unfold smaWindow
    rw [List.length_drop, List.length_take]
    omega
  · unfold rsiWindow priceChanges
    rw [List.length_drop, List.length_take, List.length_zipWith, List.length_tail]
    omega

/-- witness for C5 (amended) on a concrete flat 51-tick series: the two
long-SMA readings consulted equal the trailing means. -/
theorem indicators_consulted_eq_trailing_witness :
    51 ≤ (List.replicate 51 (1 : ℚ)).length
    ∧ lastVal (Sma 50 (List.replicate 51 (1 : ℚ))) =
        smaAt (List.replicate 51 (1 : ℚ)) 50 ((List.replicate 51 (1 : ℚ)).length - 1)
    ∧ prevVal (Sma 50 (List.replicate 51 (1 : ℚ))) =
        smaAt (List.replicate 51 (1 : ℚ)) 50 ((List.replicate 51 (1 : ℚ)).length - 2) :=
  ⟨by decide!,
   (indicators_consulted_eq_trailing (List.replicate 51 (1 : ℚ)) (by decide!)).2.2.1,
   (indicators_consulted_eq_trailing (List.replicate 51 (1 : ℚ)) (by decide!)).2.2.2.1⟩

/-- safety induction for the lifecycle state machine: from any state whose
shortest panicking call pattern is not a subsequence of the remaining
calls, the run completes without the aborting double close. -/
theorem runCalls_ok (cs : List LifecycleCall) :
    ∀ s : LifecycleState, ¬ List.Sublist (needed s) cs → (runCalls s cs).isOk = true := by
  induction cs with
  | nil => intro s _; rfl
  | cons c cs ih =>
    intro s h
    rcases s with ⟨ir, sc⟩
    cases c with
    | start =>
      cases ir with
      | false =>
        cases sc with
        | false =>
          show (runCalls ⟨true, false⟩ cs).isOk = true
          exact ih ⟨true, false⟩ fun hsub => h (List.Sublist.cons₂ _ hsub)
        | true =>
          show (runCalls ⟨true, true⟩ cs).isOk = true
          exact ih ⟨true, true⟩ fun hsub => h (List.Sublist.cons₂ _ hsub)
      | true =>
        cases sc with
        | false =>
          show (runCalls ⟨true, false⟩ cs).isOk = true
          exact ih ⟨true, false⟩ fun hsub => h (List.Sublist.cons _ hsub)
        | true =>
          show (runCalls ⟨true, true⟩ cs).isOk = true
          exact ih ⟨true, true⟩ fun hsub => h (List.Sublist.cons _ hsub)
    | stop =>
      cases ir with
      | false =>
        show (runCalls ⟨false, sc⟩ cs).isOk = true
        exact ih ⟨false, sc⟩ fun hsub => h (List.Sublist.cons _ hsub)
      | true =>
        cases sc with
        | false =>
          show (runCalls ⟨false, true⟩ cs).isOk = true
          exact ih ⟨false, true⟩ fun hsub => h (List.Sublist.cons₂ _ hsub)
        | true =>
          exact absurd (List.Sublist.cons₂ _ (List.nil_sublist cs)) h

/-- counterexample to C7 as stated: the four-call sequence Start, Stop,
Start, Stop aborts, because the second effective Stop closes the stop
channel a second time (Go run-time panic: close of closed channel). -/
theorem lifecycle_restart_counterexample :
    runCalls initialLifecycle
      [LifecycleCall.start, LifecycleCall.stop, LifecycleCall.start, LifecycleCall.stop] =
      Except.error () := rfl

/-- C7 (amended): a Start while already running and a Stop while not
running are benign no-ops leaving the lifecycle state unchanged, and every
finite sequence of Start and Stop calls on a fresh controller completes
without panicking provided it does not contain Start, Stop, Start, Stop as
a subsequence, that is, provided the controller is not stopped a second
time after being restarted. -/
theorem lifecycle_no_restart_safe (cs : List LifecycleCall)
    (h : ¬ List.Sublist
      [LifecycleCall.start, LifecycleCall.stop, LifecycleCall.start, LifecycleCall.stop] cs) :
    (runCalls initialLifecycle cs).isOk = true
    ∧ (∀ s : LifecycleState, s.isRunning = true → Start s = s)
    ∧ (∀ s : LifecycleState, s.isRunning = false → Stop s = Except.ok s) := by
  refine ⟨runCalls_ok cs initialLifecycle h, ?_, ?_⟩
  · intro s hs
    simp [Start, hs]
  · intro s hs
    simp [Stop, hs]

/-- witness for C7 (amended): the plain sequence Start, Stop completes. -/
theorem lifecycle_no_restart_safe_witness :
    (runCalls initialLifecycle [LifecycleCall.start, LifecycleCall.stop]).isOk = true :=
  (lifecycle_no_restart_safe [LifecycleCall.start, LifecycleCall.stop]
    (fun hsub => absurd (List.Sublist.length_le hsub) (by decide))).1

/-- counterexample to C8 as stated: a concrete trade cycle with a Buy
signal (the jump series) performs exactly one call into the risk manager,
CalculatePositionSize with entry 4 and stop 3.92; its complete risk-call
trace contains no DetermineTakeProfit call, so no take-profit price is
derived. -/
theorem tradeCycle_no_takeProfit_counterexample :
    (processSymbol sampleAgent "GOOD" (some buySeries)).riskCalls =
      [RiskCall.positionSize 4 (98 / 25)]
    ∧ (processSymbol sampleAgent "GOOD" (some buySeries)).order =
        some ⟨"GOOD", 1250, Side.buy⟩ := by
  decide!

/-- C8 (amended): in every trade cycle whose signal is not Hold, the
stop-loss passed to the risk manager is entry times (1 - 0.02) for Buy and
entry times (1 + 0.02) for Sell, the entry being the last close; the only
risk-manager call the cycle makes is CalculatePositionSize with that entry
and stop, and no take-profit is ever derived: DetermineTakeProfit never
appears in the risk-call trace of any cycle. -/
theorem tradeCycle_stopLoss_no_takeProfit (a : TradingAgent) (symbol : String)
    (closes : List ℚ) (h : GenerateSignal a.Strategy closes ≠ Signal.Hold) :
    (processSymbol a symbol (some closes)).riskCalls =
      [RiskCall.positionSize (entryPriceOf closes)
        (stopLossPriceOf (GenerateSignal a.Strategy closes) (entryPriceOf closes))]
    ∧ (GenerateSignal a.Strategy closes = Signal.Buy →
        stopLossPriceOf (GenerateSignal a.Strategy closes) (entryPriceOf closes) =
          entryPriceOf closes * (1 - 2 / 100))
    ∧ (GenerateSignal a.Strategy closes = Signal.Sell →
        stopLossPriceOf (GenerateSignal a.Strategy closes) (entryPriceOf closes) =
          entryPriceOf closes * (1 + 2 / 100))
    ∧ ∀ (fetched : Option (List ℚ)) (e sl r : ℚ),
        RiskCall.takeProfit e sl r ∉ (processSymbol a symbol fetched).riskCalls := by
  refine ⟨?_, ?_, ?_, ?_⟩
  · simp only [processSymbol]
    rw [if_neg h]
    split_ifs <;> rfl
  · intro hb
    rw [hb]
    simp [stopLossPriceOf]
  · intro hs
    rw [hs]
    simp [stopLossPriceOf]
  · intro fetched e sl r
    cases fetched with
    | none => simp [processSymbol]
    | some c =>
      simp only [processSymbol]
      split_ifs <;> simp

/-- witness for C8 (amended) at the concrete Buy cycle. -/
theorem tradeCycle_stopLoss_no_takeProfit_witness :
    (processSymbol sampleAgent "GOOD" (some buySeries)).riskCalls =
      [RiskCall.positionSize (entryPriceOf buySeries)
        (stopLossPriceOf (GenerateSignal sampleAgent.Strategy buySeries)
          (entryPriceOf buySeries))] :=
  (tradeCycle_stopLoss_no_takeProfit sampleAgent "GOOD" buySeries (by decide!)).1

/-- reading a mapped list at an in-range index yields the function value at
the element there. -/
theorem getD_map_cycle (f : String → CycleResult) (l : List String) (i : ℕ)
    (h : i < l.length) :
    (l.map f).getD i ⟨none, []⟩ = f (l.getD i "") := by
  rw [List.getD_eq_getElem _ _ (by simpa using h), List.getElem_map,
      List.getD_eq_getElem _ _ h]

/-- C9: on a tick whose account refresh succeeds, the trade cycle produces
one result per configured symbol, in configuration order; the result at
each position depends only on that symbol and its own fetch outcome, so a
data-fetch failure (or an order-placement failure, which does not influence
the cycle results at all) for one symbol leaves every other symbol of the
same tick evaluated exactly as before; a fetch failure itself yields the
empty skip result. -/
theorem trade_processes_each_symbol (a : TradingAgent) (balance : ℚ)
    (dataFetch : String → Option (List ℚ)) :
    ((trade a (some balance) dataFetch).2.length = a.Config.Symbols.length)
    ∧ (∀ i : ℕ, i < a.Config.Symbols.length →
        (trade a (some balance) dataFetch).2.getD i ⟨none, []⟩ =
          processSymbol { a with RiskManager := UpdateAccountBalance a.RiskManager balance }
            (a.Config.Symbols.getD i "") (dataFetch (a.Config.Symbols.getD i "")))
    ∧ (∀ (b : TradingAgent) (symbol : String), processSymbol b symbol none = ⟨none, []⟩) := by
  refine ⟨by simp [trade], ?_, fun b symbol => rfl⟩
  intro i hi
  have hmap : (trade a (some balance) dataFetch).2 =
      a.Config.Symbols.map (fun sym =>
        processSymbol { a with RiskManager := UpdateAccountBalance a.RiskManager balance } sym
          (dataFetch sym)) := rfl
  rw [hmap, getD_map_cycle _ _ _ hi]

/-- witness for C9: with the concrete two-symbol configuration whose first
symbol fails its data fetch, position 1 of the tick results is exactly the
evaluation of the second symbol (which trades on the jump series). -/
theorem trade_processes_each_symbol_witness :
    1 < sampleAgent.Config.Symbols.length
    ∧ (trade sampleAgent (some 10000) sampleFetch).2.getD 1 ⟨none, []⟩ =
        processSymbol
          { sampleAgent with RiskManager := UpdateAccountBalance sampleAgent.RiskManager 10000 }
          (sampleAgent.Config.Symbols.getD 1 "")
          (sampleFetch (sampleAgent.Config.Symbols.getD 1 "")) :=
  ⟨by decide!, (trade_processes_each_symbol sampleAgent 10000 sampleFetch).2.1 1 (by decide!)⟩

end AionVanguard
